import Mathlib

/-!
Shallow embedding of the authentication / password-reset / webhook core of the
Express + Drizzle user-dashboard server (`src/server/routes.ts`,
`src/server/storage.ts`, `src/shared/schema.ts`).

Modelling conventions:
* The user table is a `List User` in row order; Drizzle `select ... limit 1`
  becomes `List.find?`, `update ... where` becomes `List.map` guarded on the
  `where` predicate, `delete ... where` becomes `List.filter`.
* Timestamps are `Nat` milliseconds; the JS comparison
  `new Date() > new Date(expiry)` becomes `now > expiry`.
* External effects that the handlers merely consume are oracle parameters:
  the bcrypt digest (`hashed`), the generated random bytes (`randomBytes`),
  the freshly generated row id (`newId`), SMTP configuration
  (`emailConfigured`) and the email delivery outcome (`deliveryOk`).
  Filesystem effects (avatar files) are outside the user-table model.
* Zod body parsing is modelled by `Option`-typed parsed input: `none` is a
  parse failure (ZodError path), `some` carries the parsed fields.
-/

namespace Nexus

/-- A row of the `users` table (`src/shared/schema.ts`). -/
structure User where
  id : String
  email : String
  password : String
  name : String
  celular : Option String := none
  externalId : Option String := none
  role : String := "client"
  avatar : Option String := none
  status : String := "active"
  lastActive : Option Nat := none
  createdAt : Option Nat := none
  resetToken : Option String := none
  resetTokenExpiry : Option Nat := none
deriving Repr, DecidableEq

/-- Model of `SelectUser = Omit<User, "password" | "resetToken" | "resetTokenExpiry">`
(`src/shared/schema.ts`): the shape produced by
`DatabaseStorage.excludePassword`. -/
structure SelectUser where
  id : String
  email : String
  name : String
  celular : Option String
  externalId : Option String
  role : String
  avatar : Option String
  status : String
  lastActive : Option Nat
  createdAt : Option Nat
deriving Repr, DecidableEq

/-- Shape of the login handler destructuring `const ... = user`:
every field of the row except `password` (the token fields stay). -/
structure UserSansPassword where
  id : String
  email : String
  name : String
  celular : Option String
  externalId : Option String
  role : String
  avatar : Option String
  status : String
  lastActive : Option Nat
  createdAt : Option Nat
  resetToken : Option String
  resetTokenExpiry : Option Nat
deriving Repr, DecidableEq

/-- Model of `DatabaseStorage.excludePassword` (`storage.ts`): drop `password`,
`resetToken`, `resetTokenExpiry`. -/
def excludePassword (u : User) : SelectUser :=
  { id := u.id, email := u.email, name := u.name, celular := u.celular
  , externalId := u.externalId, role := u.role, avatar := u.avatar
  , status := u.status, lastActive := u.lastActive, createdAt := u.createdAt }

/-- Rest-destructuring performed by the login handler: drop `password` only. -/
def dropPassword (u : User) : UserSansPassword :=
  { id := u.id, email := u.email, name := u.name, celular := u.celular
  , externalId := u.externalId, role := u.role, avatar := u.avatar
  , status := u.status, lastActive := u.lastActive, createdAt := u.createdAt
  , resetToken := u.resetToken, resetTokenExpiry := u.resetTokenExpiry }

/-- Model of `DatabaseStorage.getUserByEmail`: `select ... where email = ? limit 1`,
returning the full row. -/
def getUserByEmail (store : List User) (email : String) : Option User :=
  store.find? (fun u => u.email == email)

/-- Model of `DatabaseStorage.getUserByResetToken`: `select ... where reset_token = ?
limit 1`. A SQL `NULL` column never equals a string, hence `== some token`. -/
def getUserByResetToken (store : List User) (token : String) : Option User :=
  store.find? (fun u => u.resetToken == some token)

/-- Model of `DatabaseStorage.setResetToken`: `update users set reset_token, reset_token_expiry
where email = ?`. -/
def setResetToken (store : List User) (email token : String) (expiry : Nat) :
    List User :=
  store.map (fun u =>
    if u.email == email then
      { u with resetToken := some token, resetTokenExpiry := some expiry }
    else u)

/-- Model of `DatabaseStorage.clearResetToken`: set both token fields to `NULL` for the
row with the given id (a single update statement). -/
def clearResetToken (store : List User) (userId : String) : List User :=
  store.map (fun u =>
    if u.id == userId then
      { u with resetToken := none, resetTokenExpiry := none }
    else u)

/-- Model of `DatabaseStorage.updatePassword`. -/
def updatePassword (store : List User) (userId hashed : String) : List User :=
  store.map (fun u =>
    if u.id == userId then { u with password := hashed } else u)

/-- Model of `DatabaseStorage.updateLastActive`. -/
def updateLastActive (store : List User) (userId : String) (now : Nat) :
    List User :=
  store.map (fun u =>
    if u.id == userId then { u with lastActive := some now } else u)

/-- Model of `DatabaseStorage.getUser`: lookup by id, sensitive fields excluded. -/
def getUserStore (store : List User) (id : String) : Option SelectUser :=
  (store.find? (fun u => u.id == id)).map excludePassword

/-- Model of `DatabaseStorage.getAllUsers`. -/
def getAllUsers (store : List User) : List SelectUser :=
  store.map excludePassword

/-- Model of `DatabaseStorage.deleteUser`: remove the row, report whether anything was
deleted (`result.length > 0`). -/
def deleteUserStore (store : List User) (id : String) : List User × Bool :=
  (store.filter (fun u => !(u.id == id)), store.any (fun u => u.id == id))

/-- Model of `DatabaseStorage.isExternalIdUnique`. -/
def isExternalIdUnique (store : List User) (externalId : String)
    (excludeUserId : Option String) : Bool :=
  if externalId == "" || externalId.trim == "" then true
  else
    match store.find? (fun u => u.externalId == some externalId) with
    | none => true
    | some u =>
      match excludeUserId with
      | some ex => u.id == ex
      | none => false

/-- Response bodies the modelled handlers produce. -/
inductive Body where
  | error (msg : String)
  | success (msg : String)
  | successOnly
  | valid (b : Bool)
  | loginUser (u : UserSansPassword)
  | user (u : SelectUser)
  | userOpt (u : Option SelectUser)
  | usersList (l : List SelectUser)
  | userAvatar (u : Option SelectUser) (avatar : String)
deriving Repr, DecidableEq

/-- An HTTP response: status code and JSON body. -/
structure Resp where
  status : Nat
  body : Body
deriving Repr, DecidableEq

/-- One hex digit, lowercase, as produced by the Node buffer hex encoding. -/
def hexDigit (n : Nat) : Char :=
  if n < 10 then Char.ofNat (48 + n) else Char.ofNat (87 + n)

/-- One byte rendered as two lowercase hex characters. -/
def byteToHex (b : Nat) : String :=
  String.mk [hexDigit (b / 16), hexDigit (b % 16)]

/-- Model of `crypto.randomBytes(n).toString("hex")`: each byte becomes two hex
characters, concatenated in order. The random bytes are an oracle input. -/
def bytesToHex : List Nat → String
  | [] => ""
  | b :: rest => byteToHex b ++ bytesToHex rest

/-- Membership in the lowercase hex alphabet. -/
def isHexChar (c : Char) : Bool :=
  ("0123456789abcdef".toList).contains c

/-- Handler of `POST /api/auth/login` (`routes.ts`). `parsed` is the `loginSchema` parse
result (email, password); `verify` is the bcrypt comparison oracle
(plaintext → stored digest → match). The returned user is the full row fetched
by `getUserByEmail` minus only the `password` field. -/
def login (store : List User) (parsed : Option (String × String))
    (verify : String → String → Bool) (now : Nat) : Resp × List User :=
  match parsed with
  | none => (⟨400, .error "validation"⟩, store)
  | some (email, pw) =>
    match getUserByEmail store email with
    | none => (⟨401, .error "Email ou senha inválidos"⟩, store)
    | some user =>
      if verify pw user.password then
        let store2 := updateLastActive store user.id now
        (⟨200, .loginUser (dropPassword user)⟩, store2)
      else
        (⟨401, .error "Email ou senha inválidos"⟩, store)

/-- Result of a forgot-password run: the synchronous response, the user table
after the post-response work, and the server-side log lines. -/
structure ForgotResult where
  resp : Resp
  store : List User
  logs : List String
deriving Repr, DecidableEq

/-- Handler of `POST /api/auth/forgot-password` (`routes.ts`). The generic success
response is sent before any account-dependent work; only afterwards does the
handler bail out on an unknown email or unconfigured SMTP, generate the token
(`crypto.randomBytes(32)`), persist it with a one-hour expiry, and attempt
delivery. A delivery failure (`deliveryOk = false`) lands in the catch block
after the headers are already sent, so it is only logged. -/
def forgotPassword (store : List User) (parsed : Option String)
    (emailConfigured : Bool) (randomBytes : List Nat) (now : Nat)
    (deliveryOk : Bool) : ForgotResult :=
  match parsed with
  | none => ⟨⟨400, .error "validation"⟩, store, []⟩
  | some email =>
    let resp : Resp :=
      ⟨200, .success "Se o email existir, você receberá instruções de recuperação."⟩
    match getUserByEmail store email with
    | none => ⟨resp, store, []⟩
    | some _user =>
      if !emailConfigured then
        ⟨resp, store, ["SMTP not configured. Password reset email not sent."]⟩
      else
        let token := bytesToHex randomBytes
        let expiry := now + 60 * 60 * 1000
        let store2 := setResetToken store email token expiry
        if deliveryOk then ⟨resp, store2, []⟩
        else ⟨resp, store2, ["Forgot password error"]⟩

/-- Result of a token-bearing endpoint run; `repoLookups` counts calls to
`storage.getUserByResetToken`, to make "reaches the repository" observable. -/
structure TokenResult where
  resp : Resp
  store : List User
  repoLookups : Nat
deriving Repr, DecidableEq

/-- Handler of `POST /api/auth/reset-password` (`routes.ts`). `parsed` is the
`newPasswordSchema` parse result (token, new password); `hashed` is the bcrypt
digest oracle for the new password. The syntactic pre-filter is
`!data.token || data.token.length !== 64`; there is no character-set check. -/
def resetPassword (store : List User) (parsed : Option (String × String))
    (hashed : String) (now : Nat) : TokenResult :=
  match parsed with
  | none => ⟨⟨400, .error "validation"⟩, store, 0⟩
  | some (token, _pw) =>
    if token == "" || token.length != 64 then
      ⟨⟨400, .error "Token inválido"⟩, store, 0⟩
    else
      match getUserByResetToken store token with
      | none => ⟨⟨400, .error "Token inválido ou expirado"⟩, store, 1⟩
      | some user =>
        if !(user.resetToken == some token) then
          ⟨⟨400, .error "Token inválido"⟩, store, 1⟩
        else
          match user.resetTokenExpiry with
          | none => ⟨⟨400, .error "Token expirado"⟩, clearResetToken store user.id, 1⟩
          | some expiry =>
            if now > expiry then
              ⟨⟨400, .error "Token expirado"⟩, clearResetToken store user.id, 1⟩
            else
              let store2 := updatePassword store user.id hashed
              let store3 := clearResetToken store2 user.id
              ⟨⟨200, .success "Senha redefinida com sucesso"⟩, store3, 1⟩

/-- Handler of `GET /api/auth/validate-token/:token` (`routes.ts`). Same pre-filter and
checks as consume, but side-effect-free on success and always status 200. -/
def validateToken (store : List User) (token : String) (now : Nat) :
    TokenResult :=
  if token == "" || token.length != 64 then
    ⟨⟨200, .valid false⟩, store, 0⟩
  else
    match getUserByResetToken store token with
    | none => ⟨⟨200, .valid false⟩, store, 1⟩
    | some user =>
      if !(user.resetToken == some token) then
        ⟨⟨200, .valid false⟩, store, 1⟩
      else
        match user.resetTokenExpiry with
        | none => ⟨⟨200, .valid false⟩, clearResetToken store user.id, 1⟩
        | some expiry =>
          if now > expiry then
            ⟨⟨200, .valid false⟩, clearResetToken store user.id, 1⟩
          else
            ⟨⟨200, .valid true⟩, store, 1⟩

/-- Parse result of `insertUserSchema` (`schema.ts`): fields the client may
supply on create. `role`/`status` fall back to the column defaults. -/
structure InsertUser where
  email : String
  password : String
  name : String
  celular : Option String := none
  externalId : Option String := none
  role : Option String := none
  avatar : Option String := none
  status : Option String := none
deriving Repr, DecidableEq

/-- Parse result of `updateUserSchema` (`insertUserSchema.partial().omit
password`): outer `Option` is "field present in the patch", inner `Option`
(for nullable columns) is "explicit null". -/
structure UpdateUser where
  email : Option String := none
  name : Option String := none
  celular : Option (Option String) := none
  externalId : Option (Option String) := none
  role : Option String := none
  avatar : Option (Option String) := none
  status : Option String := none
deriving Repr, DecidableEq

/-- Drizzle `update users set data where id = ?`: only the supplied columns
change. -/
def applyUpdate (u : User) (d : UpdateUser) : User :=
  { u with
    email := d.email.getD u.email
    name := d.name.getD u.name
    celular := d.celular.getD u.celular
    externalId := d.externalId.getD u.externalId
    role := d.role.getD u.role
    avatar := d.avatar.getD u.avatar
    status := d.status.getD u.status }

/-- Model of `DatabaseStorage.updateUser`: returns the updated row (sans sensitive
fields) or `none` when no row matched. -/
def updateUserStore (store : List User) (id : String) (d : UpdateUser) :
    List User × Option SelectUser :=
  let store2 := store.map (fun u => if u.id == id then applyUpdate u d else u)
  match store.find? (fun u => u.id == id) with
  | none => (store2, none)
  | some u => (store2, some (excludePassword (applyUpdate u d)))

/-- Model of `DatabaseStorage.createUser` plus the column defaults of `schema.ts`
(`gen_random_uuid` id and `defaultNow()` timestamps are oracle inputs). -/
def createUserStore (store : List User) (d : InsertUser) (hashed : String)
    (newId : String) (now : Nat) : List User × User :=
  let u : User :=
    { id := newId, email := d.email, password := hashed, name := d.name
    , celular := d.celular, externalId := d.externalId
    , role := d.role.getD "client", avatar := d.avatar
    , status := d.status.getD "active", lastActive := some now
    , createdAt := some now, resetToken := none, resetTokenExpiry := none }
  (store ++ [u], u)

/-- The protected `/api/users` requests (`routes.ts`), with the oracle inputs
each handler consumes (bcrypt digest, generated id, current time, processed
avatar URL, multer file presence). -/
inductive UsersReq where
  | getUsers
  | getUser (id : String)
  | createUser (parsed : Option InsertUser) (hashed : String) (newId : String)
      (now : Nat)
  | updateUser (id : String) (parsed : Option UpdateUser)
  | deleteUser (id : String)
  | uploadAvatar (id : String) (hasFile : Bool) (avatarUrl : String)
  | deleteAvatar (id : String)
deriving Repr, DecidableEq

/-- The handlers behind `requireAuth` (`routes.ts`), given that the session
check already passed. Avatar file deletion is a filesystem effect outside the
user-table model. -/
def usersHandler (req : UsersReq) (store : List User) : Resp × List User :=
  match req with
  | .getUsers => (⟨200, .usersList (getAllUsers store)⟩, store)
  | .getUser id =>
    match getUserStore store id with
    | none => (⟨404, .error "Usuário não encontrado"⟩, store)
    | some u => (⟨200, .user u⟩, store)
  | .createUser parsed hashed newId now =>
    match parsed with
    | none => (⟨400, .error "validation"⟩, store)
    | some d =>
      match getUserByEmail store d.email with
      | some _ => (⟨400, .error "Email já cadastrado"⟩, store)
      | none =>
        let extOk :=
          match d.externalId with
          | some ext =>
            if ext != "" then isExternalIdUnique store ext none else true
          | none => true
        if !extOk then (⟨400, .error "ID externo já está em uso"⟩, store)
        else
          let (store2, u) := createUserStore store d hashed newId now
          (⟨201, .user (excludePassword u)⟩, store2)
  | .updateUser id parsed =>
    match parsed with
    | none => (⟨400, .error "validation"⟩, store)
    | some d =>
      let extOk :=
        match d.externalId with
        | some (some ext) =>
          if ext != "" then isExternalIdUnique store ext (some id) else true
        | _ => true
      if !extOk then (⟨400, .error "ID externo já está em uso"⟩, store)
      else
        let (store2, updated) := updateUserStore store id d
        match updated with
        | none => (⟨404, .error "Usuário não encontrado"⟩, store)
        | some u => (⟨200, .user u⟩, store2)
  | .deleteUser id =>
    let (store2, success) := deleteUserStore store id
    if !success then (⟨404, .error "Usuário não encontrado"⟩, store)
    else (⟨200, .successOnly⟩, store2)
  | .uploadAvatar id hasFile avatarUrl =>
    if !hasFile then (⟨400, .error "Nenhum arquivo enviado"⟩, store)
    else
      match getUserStore store id with
      | none => (⟨404, .error "Usuário não encontrado"⟩, store)
      | some _ =>
        let (store2, updated) :=
          updateUserStore store id { avatar := some (some avatarUrl) }
        (⟨200, .userAvatar updated avatarUrl⟩, store2)
  | .deleteAvatar id =>
    match getUserStore store id with
    | none => (⟨404, .error "Usuário não encontrado"⟩, store)
    | some _ =>
      let (store2, updated) := updateUserStore store id { avatar := some none }
      (⟨200, .userOpt updated⟩, store2)

/-- Model of the `requireAuth` test `!req.session.userId`: an absent or empty (falsy)
userId fails the gate. -/
def requireAuthPasses (session : Option String) : Bool :=
  match session with
  | none => false
  | some uid => !uid.isEmpty

/-- A `/api/users` route: `requireAuth` gates the handler. The session carries
`some userId` exactly when `req.session.userId` is set. -/
def usersRoute (req : UsersReq) (session : Option String)
    (store : List User) : Resp × List User :=
  if !(requireAuthPasses session) then (⟨401, .error "Não autorizado"⟩, store)
  else usersHandler req store

/-! ## Webhook event dispatcher

JS objects built by literals with spreads are modelled as ordered key/value
lists where a later entry for a key shadows an earlier one, exactly the JS
object-literal semantics. The derived event name (`getEventName`) is passed as
an oracle string: no claim constrains its value, only its position in the
payload literal. -/

/-- JSON-ish values carried in request bodies / payloads. -/
inductive JVal where
  | str (s : String)
  | num (n : Int)
  | nullV
deriving Repr, DecidableEq

/-- A JS object as an ordered association list; later entries shadow. -/
abbrev Obj := List (String × JVal)

/-- Property lookup: the last entry for the key wins (JS spread semantics). -/
def jget : Obj → String → Option JVal
  | [], _ => none
  | p :: rest, k =>
    match jget rest k with
    | some v => some v
    | none => if p.1 == k then some p.2 else none

/-- JS truthiness of a `JVal`. -/
def jtruthy : JVal → Bool
  | .str s => !s.isEmpty
  | .num n => n != 0
  | .nullV => false

/-- Model of `req.session?.userId || null`: a falsy (absent or empty) userId becomes
JSON `null`. -/
def jsUserId : Option String → JVal
  | some u => if u.isEmpty then .nullV else .str u
  | none => .nullV

/-- Payload literal of the first `webhookDispatcher` variant:
`{ event, ...req.body, ...req.query, ...req.params, userId, timestamp }`. -/
def mkPayload1 (event : String) (body query params : Obj)
    (userId : Option String) (timestamp : String) : Obj :=
  [("event", JVal.str event)] ++ body ++ query ++ params
    ++ [("userId", jsUserId userId), ("timestamp", JVal.str timestamp)]

/-- Model of `parseGeolocation` of the second dispatcher variant: a truthy
`body.geolocation` wins; otherwise a truthy `query._geo` is JSON-parsed
(`parsedGeo` is the parse oracle, `none` = parse failure); otherwise null. -/
def parseGeolocation (body query : Obj) (parsedGeo : Option JVal) : JVal :=
  match jget body "geolocation" with
  | some g =>
    if jtruthy g then g
    else
      match jget query "_geo" with
      | some q => if jtruthy q then parsedGeo.getD JVal.nullV else JVal.nullV
      | none => JVal.nullV
  | none =>
    match jget query "_geo" with
    | some q => if jtruthy q then parsedGeo.getD JVal.nullV else JVal.nullV
    | none => JVal.nullV

/-- Payload literal of the second `webhookDispatcher` variant:
`{ event, ...bodyWithoutGeo, ...cleanQuery, ...req.params, geolocation,
userId, timestamp }`. -/
def mkPayload2 (event : String) (body query params : Obj)
    (parsedGeo : Option JVal) (userId : Option String) (timestamp : String) :
    Obj :=
  let bodyWithoutGeo := body.filter (fun p => !(p.1 == "geolocation"))
  let cleanQuery := query.filter (fun p => !(p.1 == "_geo"))
  [("event", JVal.str event)] ++ bodyWithoutGeo ++ cleanQuery ++ params
    ++ [("geolocation", parseGeolocation body query parsedGeo)
      , ("userId", jsUserId userId), ("timestamp", JVal.str timestamp)]

/-- Process-wide webhook configuration plus the reachability of the target. -/
structure WebhookEnv where
  url : Option String
  apiKey : Option String
  reachable : Bool
deriving Repr, DecidableEq

/-- An outbound webhook delivery that succeeded. -/
structure SentRequest where
  url : String
  headers : List (String × String)
  body : Obj
deriving Repr, DecidableEq

/-- Model of the `fetch` call inside `dispatchWebhook`: headers as built in the source;
an unreachable target makes the call fail. -/
def fetchAttempt (url : String) (apiKey : Option String) (reachable : Bool)
    (payload : Obj) : Except String SentRequest :=
  let headers :=
    [("Content-Type", "application/json")]
      ++ (match apiKey with
          | some k => [("Authorization", "Bearer " ++ k), ("X-API-Key", k)]
          | none => [])
  if reachable then Except.ok ⟨url, headers, payload⟩
  else Except.error "fetch failed"

/-- Model of `dispatchWebhook` (`routes.ts`): no-op without a configured URL; the
`try`/`catch` turns a delivery failure into a log line, never an exception. -/
def dispatchWebhook (env : WebhookEnv) (payload : Obj) :
    List SentRequest × List String :=
  match env.url with
  | none => ([], [])
  | some url =>
    match fetchAttempt url env.apiKey env.reachable payload with
    | .ok r => ([r], [])
    | .error e => ([], ["Webhook dispatch error: " ++ e])

/-- What the original caller and the webhook target observe from one request
that went through the dispatcher middleware. -/
structure DispatchOutcome where
  resp : Resp
  delivered : List SentRequest
  logs : List String
deriving Repr, DecidableEq

/-- Methods the dispatcher intercepts. -/
def allowedMethods : List String := ["GET", "POST", "PUT", "PATCH", "DELETE"]

/-- JS `String.prototype.includes`. -/
def containsSub (s pat : String) : Bool := (s.splitOn pat).length != 1

/-- Model of the `webhookDispatcher` middleware (first variant): for eligible requests it
wraps `res.json`, assembles the payload, launches `dispatchWebhook` with a
`.catch` that only logs, and always returns `originalJson(data)` — `resp` is
the response the wrapped handler produced. -/
def webhookMiddleware (env : WebhookEnv) (method path : String)
    (body query params : Obj) (sessionUserId : Option String)
    (eventName timestamp : String) (resp : Resp) : DispatchOutcome :=
  if !(allowedMethods.contains method) then ⟨resp, [], []⟩
  else if !(path.startsWith "/api/") || containsSub path "/socket.io" then
    ⟨resp, [], []⟩
  else
    let payload := mkPayload1 eventName body query params sessionUserId timestamp
    let dl := dispatchWebhook env payload
    ⟨resp, dl.1, dl.2⟩

/-! ## Helper lemmas -/

theorem jget_append (a b : Obj) (k : String) :
    jget (a ++ b) k = match jget b k with
      | some v => some v
      | none => jget a k := by
  induction a with
  | nil =>
    simp only [List.nil_append]
    cases jget b k <;> rfl
  | cons p rest ih =>
    simp only [List.cons_append, jget, List.append_eq]
    rw [ih]
    cases jget b k <;> cases jget rest k <;> rfl

theorem jget_filter_ne (l : Obj) (bad k : String) (h : ¬(k = bad)) :
    jget (l.filter (fun p => !(p.1 == bad))) k = jget l k := by
  induction l with
  | nil => rfl
  | cons p rest ih =>
    rw [List.filter_cons]
    by_cases hp : p.1 = bad
    · have hb : (!(p.1 == bad)) = false := by simp [hp]
      rw [hb, if_neg (by simp)]
      rw [ih]
      have hk : (p.1 == k) = false := by
        simp only [beq_eq_false_iff_ne, ne_eq]
        intro e
        exact h (e ▸ hp)
      simp only [jget, hk]
      cases jget rest k <;> rfl
    · have hb : (!(p.1 == bad)) = true := by simp [hp]
      rw [hb, if_pos rfl]
      simp only [jget, ih]

theorem jget_eq_none_mem (l : Obj) (k : String) (h : jget l k = none) :
    ∀ p ∈ l, ¬(p.1 = k) := by
  induction l with
  | nil => intro p hp; cases hp
  | cons q rest ih =>
    intro p hp
    simp only [jget] at h
    cases hrest : jget rest k with
    | some v => rw [hrest] at h; cases h
    | none =>
      rw [hrest] at h
      rcases List.mem_cons.mp hp with rfl | hmem
      · intro e
        have : (p.1 == k) = true := by simp [e]
        rw [this] at h; cases h
      · exact ih hrest p hmem

theorem bytesToHex_length (bs : List Nat) :
    (bytesToHex bs).length = 2 * bs.length := by
  induction bs with
  | nil => rfl
  | cons b rest ih =>
    show (byteToHex b ++ bytesToHex rest).length = 2 * (rest.length + 1)
    rw [String.length_append, ih]
    show 2 + 2 * rest.length = 2 * (rest.length + 1)
    ring

theorem hexDigit_isHex (n : Nat) (h : n < 16) : isHexChar (hexDigit n) = true := by
  interval_cases n <;> decide

theorem byteToHex_isHex (b : Nat) (h : b < 256) :
    (byteToHex b).data.all isHexChar = true := by
  have h1 : b / 16 < 16 := Nat.div_lt_of_lt_mul (by omega)
  have h2 : b % 16 < 16 := Nat.mod_lt _ (by omega)
  show ([hexDigit (b / 16), hexDigit (b % 16)].all isHexChar) = true
  simp [List.all_cons, hexDigit_isHex _ h1, hexDigit_isHex _ h2]

theorem bytesToHex_isHex (bs : List Nat) (h : ∀ b ∈ bs, b < 256) :
    (bytesToHex bs).data.all isHexChar = true := by
  induction bs with
  | nil => rfl
  | cons b rest ih =>
    show ((byteToHex b ++ bytesToHex rest).data.all isHexChar) = true
    rw [String.data_append, List.all_append]
    have hb := byteToHex_isHex b (h b (List.mem_cons_self _ _))
    have hr := ih (fun x hx => h x (List.mem_cons_of_mem _ hx))
    simp [hb, hr]

theorem length64_ne_empty {token : String} (h : token.length = 64) :
    (token == "") = false := by
  simp only [beq_eq_false_iff_ne, ne_eq]
  intro e
  subst e
  simp at h

theorem forgotPassword_resp_generic (s : List User) (email : String)
    (cfg : Bool) (b : List Nat) (n : Nat) (d : Bool) :
    (forgotPassword s (some email) cfg b n d).resp
      = ⟨200, Body.success
          "Se o email existir, você receberá instruções de recuperação."⟩ := by
  simp only [forgotPassword]
  cases getUserByEmail s email <;> cases cfg <;> cases d <;> rfl

theorem forgotPassword_store_configured (s : List User) (email : String)
    (u : User) (b : List Nat) (n : Nat) (d : Bool)
    (hu : getUserByEmail s email = some u) :
    (forgotPassword s (some email) true b n d).store
      = setResetToken s email (bytesToHex b) (n + 60 * 60 * 1000) := by
  simp only [forgotPassword, hu]
  cases d <;> rfl

theorem setResetToken_mem (store : List User) (email tok : String) (exp : Nat) :
    ∀ v ∈ setResetToken store email tok exp, v.email = email →
      v.resetToken = some tok ∧ v.resetTokenExpiry = some exp := by
  intro v hv he
  rcases List.mem_map.mp hv with ⟨w, hw, hfw⟩
  by_cases hwe : (w.email == email) = true
  · rw [if_pos hwe] at hfw
    rw [← hfw]
    exact ⟨rfl, rfl⟩
  · rw [if_neg hwe] at hfw
    rw [← hfw] at he
    exact absurd (beq_iff_eq.mpr he) hwe

/-! ## Claims -/

/-- Claim C1 (code bug): the spec says a successful login returns the user
without the password and without the token fields, but the handler only
destructures `password` away from the full `getUserByEmail` row, so a stored
`resetToken`/`resetTokenExpiry` pair is included in the login response body.
Concretely, a user with a live reset token logs in with the right password and
the 200 response carries the stored token and expiry. -/
theorem C1_login_response_contains_reset_token :
    ∃ out : UserSansPassword,
      (login
        [{ id := "u1", email := "a@b.com", password := "digest", name := "Alice"
         , resetToken := some "0123456789abcdef0123456789abcdef0123456789abcdef0123456789abcdef"
         , resetTokenExpiry := some 999 }]
        (some ("a@b.com", "pw")) (fun _ _ => true) 5).1
        = ⟨200, Body.loginUser out⟩
      ∧ out.resetToken
          = some "0123456789abcdef0123456789abcdef0123456789abcdef0123456789abcdef"
      ∧ out.resetTokenExpiry = some 999 := by
  refine ⟨_, rfl, rfl, rfl⟩

/-- Claim C2: for a well-formed forgot-password body the synchronous response
is the same generic success, independent of the store (hence of whether the
account exists), of SMTP configuration, of the generated bytes, of the clock
and of the delivery outcome. -/
theorem C2_forgot_password_uniform_response (s₁ s₂ : List User) (email : String)
    (cfg₁ cfg₂ : Bool) (b₁ b₂ : List Nat) (n₁ n₂ : Nat) (d₁ d₂ : Bool) :
    (forgotPassword s₁ (some email) cfg₁ b₁ n₁ d₁).resp
      = (forgotPassword s₂ (some email) cfg₂ b₂ n₂ d₂).resp := by
  rw [forgotPassword_resp_generic, forgotPassword_resp_generic]

/-- Claim C7: every protected `/api/users` route invoked with a session that
carries no userId answers 401 "Não autorizado" and leaves the user table
untouched. -/
theorem C7_users_routes_unauthorized (req : UsersReq) (store : List User) :
    usersRoute req none store = (⟨401, Body.error "Não autorizado"⟩, store) :=
  rfl

/-- Claim C8: the response the original caller sees is exactly the response
the wrapped handler produced, for every webhook configuration — target
unconfigured, configured and reachable, or configured and failing; delivery
errors end up in logs only. -/
theorem C8_webhook_never_alters_response (env : WebhookEnv)
    (method path : String) (body query params : Obj)
    (sessionUserId : Option String) (eventName timestamp : String)
    (resp : Resp) :
    (webhookMiddleware env method path body query params sessionUserId
      eventName timestamp resp).resp = resp := by
  unfold webhookMiddleware
  split
  · rfl
  · split
    · rfl
    · rfl

/-- Claim C3 (counterexample): a forgot-password request for a known email
does NOT persist a token when SMTP is unconfigured — the handler returns right
after logging, before `crypto.randomBytes`/`setResetToken` run. The store is
unchanged and the user still has no reset token, refuting "for every
forgot-password request whose email belongs to a known user, a fresh token
... is persisted". -/
theorem C3_counterexample_no_token_without_smtp :
    getUserByEmail
        [{ id := "u1", email := "a@b.com", password := "digest", name := "Alice" }]
        "a@b.com"
      = some { id := "u1", email := "a@b.com", password := "digest", name := "Alice" }
    ∧ (forgotPassword
        [{ id := "u1", email := "a@b.com", password := "digest", name := "Alice" }]
        (some "a@b.com") false (List.replicate 32 7) 1000 true).store
      = [{ id := "u1", email := "a@b.com", password := "digest", name := "Alice" }] :=
  ⟨rfl, rfl⟩

/-- Claim C3 (amended): when the email belongs to a known user AND the email
service is configured, a fresh 64-lowercase-hex-character token (from 32
random bytes) with expiry now + 1 hour is persisted on that user record, and
the delivery outcome changes neither the persisted store nor the response. -/
theorem C3_token_issuance_when_configured (store : List User) (email : String)
    (u : User) (bytes : List Nat) (now : Nat) (d : Bool)
    (hu : getUserByEmail store email = some u)
    (hlen : bytes.length = 32) (hb : ∀ b ∈ bytes, b < 256) :
    (bytesToHex bytes).length = 64
    ∧ (bytesToHex bytes).data.all isHexChar = true
    ∧ (forgotPassword store (some email) true bytes now d).store
        = setResetToken store email (bytesToHex bytes) (now + 60 * 60 * 1000)
    ∧ (∀ v ∈ (forgotPassword store (some email) true bytes now d).store,
        v.email = email →
          v.resetToken = some (bytesToHex bytes)
          ∧ v.resetTokenExpiry = some (now + 60 * 60 * 1000))
    ∧ (forgotPassword store (some email) true bytes now d).resp
        = (forgotPassword store (some email) true bytes now (!d)).resp
    ∧ (forgotPassword store (some email) true bytes now d).store
        = (forgotPassword store (some email) true bytes now (!d)).store := by
  have hstore := forgotPassword_store_configured store email u bytes now d hu
  have hstore2 := forgotPassword_store_configured store email u bytes now (!d) hu
  refine ⟨?_, ?_, hstore, ?_, ?_, ?_⟩
  · rw [bytesToHex_length, hlen]
  · exact bytesToHex_isHex bytes hb
  · rw [hstore]
    exact setResetToken_mem store email (bytesToHex bytes) (now + 60 * 60 * 1000)
  · rw [forgotPassword_resp_generic, forgotPassword_resp_generic]
  · rw [hstore, hstore2]

/-- Witness for the amended C3: a concrete single-user store, SMTP configured,
32 zero bytes. -/
theorem C3_token_issuance_witness :
    (getUserByEmail
        [{ id := "u1", email := "a@b.com", password := "digest", name := "Alice" }]
        "a@b.com"
      = some { id := "u1", email := "a@b.com", password := "digest", name := "Alice" })
    ∧ ((List.replicate 32 0).length = 32)
    ∧ ((bytesToHex (List.replicate 32 0)).length = 64
      ∧ (bytesToHex (List.replicate 32 0)).data.all isHexChar = true
      ∧ (forgotPassword
          [{ id := "u1", email := "a@b.com", password := "digest", name := "Alice" }]
          (some "a@b.com") true (List.replicate 32 0) 1000 true).store
          = setResetToken
              [{ id := "u1", email := "a@b.com", password := "digest", name := "Alice" }]
              "a@b.com" (bytesToHex (List.replicate 32 0)) (1000 + 60 * 60 * 1000)
      ∧ (∀ v ∈ (forgotPassword
            [{ id := "u1", email := "a@b.com", password := "digest", name := "Alice" }]
            (some "a@b.com") true (List.replicate 32 0) 1000 true).store,
          v.email = "a@b.com" →
            v.resetToken = some (bytesToHex (List.replicate 32 0))
            ∧ v.resetTokenExpiry = some (1000 + 60 * 60 * 1000))
      ∧ (forgotPassword
            [{ id := "u1", email := "a@b.com", password := "digest", name := "Alice" }]
            (some "a@b.com") true (List.replicate 32 0) 1000 true).resp
          = (forgotPassword
            [{ id := "u1", email := "a@b.com", password := "digest", name := "Alice" }]
            (some "a@b.com") true (List.replicate 32 0) 1000 (!true)).resp
      ∧ (forgotPassword
            [{ id := "u1", email := "a@b.com", password := "digest", name := "Alice" }]
            (some "a@b.com") true (List.replicate 32 0) 1000 true).store
          = (forgotPassword
            [{ id := "u1", email := "a@b.com", password := "digest", name := "Alice" }]
            (some "a@b.com") true (List.replicate 32 0) 1000 (!true)).store) :=
  ⟨rfl, rfl,
    C3_token_issuance_when_configured
      [{ id := "u1", email := "a@b.com", password := "digest", name := "Alice" }]
      "a@b.com"
      { id := "u1", email := "a@b.com", password := "digest", name := "Alice" }
      (List.replicate 32 0) 1000 true rfl rfl (by decide)⟩

theorem resetPassword_success (store : List User) (token pw hashed : String)
    (now : Nat) (u : User) (e : Nat)
    (hlen : token.length = 64)
    (hfind : getUserByResetToken store token = some u)
    (hexp : u.resetTokenExpiry = some e)
    (hfresh : now < e) :
    resetPassword store (some (token, pw)) hashed now
      = ⟨⟨200, Body.success "Senha redefinida com sucesso"⟩,
         clearResetToken (updatePassword store u.id hashed) u.id, 1⟩ := by
  have hne := length64_ne_empty hlen
  have hfind' : store.find? (fun v => v.resetToken == some token) = some u :=
    hfind
  have htok : (u.resetToken == some token) = true := by
    have h := List.find?_some hfind'
    simpa using h
  have hlen' : (token.length != 64) = false := by simp [hlen]
  have hgt : ¬(now > e) := by omega
  simp only [resetPassword, hne, hlen', Bool.or_self, if_neg, hfind, htok,
    Bool.not_true, hexp, if_false, Bool.false_eq_true, hgt, reduceIte]

theorem resetPassword_lookup_none (store : List User) (token pw hashed : String)
    (now : Nat)
    (hlen : token.length = 64)
    (hfind : getUserByResetToken store token = none) :
    resetPassword store (some (token, pw)) hashed now
      = ⟨⟨400, Body.error "Token inválido ou expirado"⟩, store, 1⟩ := by
  have hne := length64_ne_empty hlen
  have hlen' : (token.length != 64) = false := by simp [hlen]
  simp only [resetPassword, hne, hlen', Bool.or_self, if_neg, hfind,
    Bool.false_eq_true, reduceIte]

theorem consumed_fields (store : List User) (uid hashed : String) :
    ∀ v ∈ clearResetToken (updatePassword store uid hashed) uid, v.id = uid →
      v.password = hashed ∧ v.resetToken = none ∧ v.resetTokenExpiry = none := by
  intro v hv hid
  rcases List.mem_map.mp hv with ⟨w1, hw1, hfw1⟩
  rcases List.mem_map.mp hw1 with ⟨w, hw, hfw⟩
  by_cases hwid : (w.id == uid) = true
  · rw [if_pos hwid] at hfw
    rw [← hfw] at hfw1
    rw [if_pos hwid] at hfw1
    rw [← hfw1]
    exact ⟨rfl, rfl, rfl⟩
  · rw [if_neg hwid] at hfw
    rw [← hfw] at hfw1
    rw [if_neg hwid] at hfw1
    rw [← hfw1] at hid
    exact absurd (beq_iff_eq.mpr hid) hwid

theorem consumed_token_gone (store : List User) (token uid hashed : String)
    (huniq : ∀ v ∈ store, v.resetToken = some token → v.id = uid) :
    getUserByResetToken (clearResetToken (updatePassword store uid hashed) uid)
      token = none := by
  apply List.find?_eq_none.mpr
  intro v hv
  rcases List.mem_map.mp hv with ⟨w1, hw1, hfw1⟩
  rcases List.mem_map.mp hw1 with ⟨w, hw, hfw⟩
  by_cases hwid : (w.id == uid) = true
  · rw [if_pos hwid] at hfw
    rw [← hfw] at hfw1
    rw [if_pos hwid] at hfw1
    rw [← hfw1]
    simp
  · rw [if_neg hwid] at hfw
    rw [← hfw] at hfw1
    rw [if_neg hwid] at hfw1
    rw [← hfw1]
    intro hcontra
    have : w.resetToken = some token := by
      simpa using hcontra
    exact hwid (beq_iff_eq.mpr (huniq w hw this))

/-- Claim C4: a reset-password request with a well-formed token matching a
live stored `resetToken` of a user whose expiry is strictly in the future replaces the
stored password with the supplied digest and clears both token fields, and a
second request with the identical token (given that user was the sole holder
of the token) fails with "Token inválido ou expirado" and changes nothing. -/
theorem C4_reset_token_single_use (store : List User)
    (token pw pw2 hashed hashed2 : String) (now now2 : Nat) (u : User) (e : Nat)
    (hlen : token.length = 64)
    (hfind : getUserByResetToken store token = some u)
    (hexp : u.resetTokenExpiry = some e)
    (hfresh : now < e)
    (huniq : ∀ v ∈ store, v.resetToken = some token → v.id = u.id) :
    (resetPassword store (some (token, pw)) hashed now).resp
      = ⟨200, Body.success "Senha redefinida com sucesso"⟩
    ∧ (resetPassword store (some (token, pw)) hashed now).store
        = clearResetToken (updatePassword store u.id hashed) u.id
    ∧ (∀ v ∈ (resetPassword store (some (token, pw)) hashed now).store,
        v.id = u.id →
          v.password = hashed ∧ v.resetToken = none ∧ v.resetTokenExpiry = none)
    ∧ resetPassword (resetPassword store (some (token, pw)) hashed now).store
        (some (token, pw2)) hashed2 now2
      = ⟨⟨400, Body.error "Token inválido ou expirado"⟩,
         (resetPassword store (some (token, pw)) hashed now).store, 1⟩ := by
  have h1 := resetPassword_success store token pw hashed now u e hlen hfind hexp hfresh
  refine ⟨by rw [h1], by rw [h1], ?_, ?_⟩
  · rw [h1]
    exact consumed_fields store u.id hashed
  · rw [h1]
    exact resetPassword_lookup_none _ token pw2 hashed2 now2 hlen
      (consumed_token_gone store token u.id hashed huniq)

/-- Witness for C4: one user holding a live 64-character token, clock at 5,
expiry at 10. -/
theorem C4_witness :
    ((String.mk (List.replicate 64 'a')).length = 64
    ∧ getUserByResetToken
        [{ id := "u1", email := "a@b.com", password := "old", name := "Alice"
         , resetToken := some (String.mk (List.replicate 64 'a'))
         , resetTokenExpiry := some 10 }]
        (String.mk (List.replicate 64 'a'))
      = some { id := "u1", email := "a@b.com", password := "old", name := "Alice"
             , resetToken := some (String.mk (List.replicate 64 'a'))
             , resetTokenExpiry := some 10 })
    ∧ (resetPassword
        [{ id := "u1", email := "a@b.com", password := "old", name := "Alice"
         , resetToken := some (String.mk (List.replicate 64 'a'))
         , resetTokenExpiry := some 10 }]
        (some (String.mk (List.replicate 64 'a'), "newpass1")) "newdigest" 5).resp
      = ⟨200, Body.success "Senha redefinida com sucesso"⟩
    ∧ resetPassword
        (resetPassword
          [{ id := "u1", email := "a@b.com", password := "old", name := "Alice"
           , resetToken := some (String.mk (List.replicate 64 'a'))
           , resetTokenExpiry := some 10 }]
          (some (String.mk (List.replicate 64 'a'), "newpass1")) "newdigest" 5).store
        (some (String.mk (List.replicate 64 'a'), "other1")) "otherdigest" 6
      = ⟨⟨400, Body.error "Token inválido ou expirado"⟩,
         (resetPassword
          [{ id := "u1", email := "a@b.com", password := "old", name := "Alice"
           , resetToken := some (String.mk (List.replicate 64 'a'))
           , resetTokenExpiry := some 10 }]
          (some (String.mk (List.replicate 64 'a'), "newpass1")) "newdigest" 5).store,
         1⟩ := by
  have h := C4_reset_token_single_use
    [{ id := "u1", email := "a@b.com", password := "old", name := "Alice"
     , resetToken := some (String.mk (List.replicate 64 'a'))
     , resetTokenExpiry := some 10 }]
    (String.mk (List.replicate 64 'a')) "newpass1" "other1" "newdigest"
    "otherdigest" 5 6
    { id := "u1", email := "a@b.com", password := "old", name := "Alice"
    , resetToken := some (String.mk (List.replicate 64 'a'))
    , resetTokenExpiry := some 10 }
    10 (by decide) (by decide) rfl (by decide) (by decide)
  exact ⟨⟨by decide, by decide⟩, h.1, h.2.2.2⟩

theorem validateToken_expired (store : List User) (token : String) (now : Nat)
    (u : User) (e : Nat)
    (hlen : token.length = 64)
    (hfind : getUserByResetToken store token = some u)
    (hexp : u.resetTokenExpiry = some e)
    (hpast : e < now) :
    validateToken store token now
      = ⟨⟨200, Body.valid false⟩, clearResetToken store u.id, 1⟩ := by
  have hne := length64_ne_empty hlen
  have hfind' : store.find? (fun v => v.resetToken == some token) = some u :=
    hfind
  have htok : (u.resetToken == some token) = true := by
    have h := List.find?_some hfind'
    simpa using h
  have hlen' : (token.length != 64) = false := by simp [hlen]
  have hgt : now > e := hpast
  simp only [validateToken, hne, hlen', Bool.or_self, hfind, htok,
    Bool.not_true, hexp, Bool.false_eq_true, hgt, reduceIte, if_true]

theorem resetPassword_expired (store : List User) (token pw hashed : String)
    (now : Nat) (u : User) (e : Nat)
    (hlen : token.length = 64)
    (hfind : getUserByResetToken store token = some u)
    (hexp : u.resetTokenExpiry = some e)
    (hpast : e < now) :
    resetPassword store (some (token, pw)) hashed now
      = ⟨⟨400, Body.error "Token expirado"⟩, clearResetToken store u.id, 1⟩ := by
  have hne := length64_ne_empty hlen
  have hfind' : store.find? (fun v => v.resetToken == some token) = some u :=
    hfind
  have htok : (u.resetToken == some token) = true := by
    have h := List.find?_some hfind'
    simpa using h
  have hlen' : (token.length != 64) = false := by simp [hlen]
  have hgt : now > e := hpast
  simp only [resetPassword, hne, hlen', Bool.or_self, hfind, htok,
    Bool.not_true, hexp, Bool.false_eq_true, hgt, reduceIte, if_true]

theorem clearResetToken_mem (store : List User) (uid : String) :
    ∀ v ∈ clearResetToken store uid, v.id = uid →
      v.resetToken = none ∧ v.resetTokenExpiry = none := by
  intro v hv hid
  rcases List.mem_map.mp hv with ⟨w, hw, hfw⟩
  by_cases hwid : (w.id == uid) = true
  · rw [if_pos hwid] at hfw
    rw [← hfw]
    exact ⟨rfl, rfl⟩
  · rw [if_neg hwid] at hfw
    rw [← hfw] at hid
    exact absurd (beq_iff_eq.mpr hid) hwid

/-- Claim C5 (counterexample): at the boundary `expiry = now` the check in
the code, `new Date() > new Date(expiry)`, is false, so a token whose expiry
equals the current time is ACCEPTED: validate answers `valid: true` without
clearing anything, and consume resets the password — refuting the part of the
claim that says expiry <= now yields a rejection. -/
theorem C5_counterexample_boundary_accepted :
    validateToken
        [{ id := "u1", email := "a@b.com", password := "old", name := "Alice"
         , resetToken := some (String.mk (List.replicate 64 'a'))
         , resetTokenExpiry := some 100 }]
        (String.mk (List.replicate 64 'a')) 100
      = ⟨⟨200, Body.valid true⟩,
         [{ id := "u1", email := "a@b.com", password := "old", name := "Alice"
          , resetToken := some (String.mk (List.replicate 64 'a'))
          , resetTokenExpiry := some 100 }], 1⟩
    ∧ (resetPassword
        [{ id := "u1", email := "a@b.com", password := "old", name := "Alice"
         , resetToken := some (String.mk (List.replicate 64 'a'))
         , resetTokenExpiry := some 100 }]
        (some (String.mk (List.replicate 64 'a'), "newpass1")) "newdigest"
        100).resp
      = ⟨200, Body.success "Senha redefinida com sucesso"⟩ := by
  constructor <;> rfl

/-- Claim C5 (amended): for a stored expiry STRICTLY before the lookup time,
both the validate endpoint and the consume endpoint reject the token
(`valid: false`, respectively "Token expirado") and, as a side effect, clear
the stored `resetToken` and `resetTokenExpiry`. -/
theorem C5_expired_token_lazily_cleared (store : List User) (token pw hashed :
    String) (now : Nat) (u : User) (e : Nat)
    (hlen : token.length = 64)
    (hfind : getUserByResetToken store token = some u)
    (hexp : u.resetTokenExpiry = some e)
    (hpast : e < now) :
    validateToken store token now
      = ⟨⟨200, Body.valid false⟩, clearResetToken store u.id, 1⟩
    ∧ resetPassword store (some (token, pw)) hashed now
      = ⟨⟨400, Body.error "Token expirado"⟩, clearResetToken store u.id, 1⟩
    ∧ (∀ v ∈ clearResetToken store u.id, v.id = u.id →
        v.resetToken = none ∧ v.resetTokenExpiry = none) :=
  ⟨validateToken_expired store token now u e hlen hfind hexp hpast,
   resetPassword_expired store token pw hashed now u e hlen hfind hexp hpast,
   clearResetToken_mem store u.id⟩

/-- Witness for the amended C5: expiry 10, lookup at time 100. -/
theorem C5_expired_token_witness :
    validateToken
        [{ id := "u1", email := "a@b.com", password := "old", name := "Alice"
         , resetToken := some (String.mk (List.replicate 64 'b'))
         , resetTokenExpiry := some 10 }]
        (String.mk (List.replicate 64 'b')) 100
      = ⟨⟨200, Body.valid false⟩,
         clearResetToken
           [{ id := "u1", email := "a@b.com", password := "old", name := "Alice"
            , resetToken := some (String.mk (List.replicate 64 'b'))
            , resetTokenExpiry := some 10 }] "u1", 1⟩
    ∧ resetPassword
        [{ id := "u1", email := "a@b.com", password := "old", name := "Alice"
         , resetToken := some (String.mk (List.replicate 64 'b'))
         , resetTokenExpiry := some 10 }]
        (some (String.mk (List.replicate 64 'b'), "newpass1")) "newdigest" 100
      = ⟨⟨400, Body.error "Token expirado"⟩,
         clearResetToken
           [{ id := "u1", email := "a@b.com", password := "old", name := "Alice"
            , resetToken := some (String.mk (List.replicate 64 'b'))
            , resetTokenExpiry := some 10 }] "u1", 1⟩ := by
  have h := C5_expired_token_lazily_cleared
    [{ id := "u1", email := "a@b.com", password := "old", name := "Alice"
     , resetToken := some (String.mk (List.replicate 64 'b'))
     , resetTokenExpiry := some 10 }]
    (String.mk (List.replicate 64 'b')) "newpass1" "newdigest" 100
    { id := "u1", email := "a@b.com", password := "old", name := "Alice"
    , resetToken := some (String.mk (List.replicate 64 'b'))
    , resetTokenExpiry := some 10 }
    10 (by decide) rfl rfl (by decide)
  exact ⟨h.1, h.2.1⟩

theorem setResetToken_kills_old (store : List User) (email t1 t2 : String)
    (exp : Nat)
    (huniq : ∀ v ∈ store, v.resetToken = some t1 → v.email = email)
    (hne : t2 ≠ t1) :
    getUserByResetToken (setResetToken store email t2 exp) t1 = none := by
  apply List.find?_eq_none.mpr
  intro v hv
  rcases List.mem_map.mp hv with ⟨w, hw, hfw⟩
  by_cases hwe : (w.email == email) = true
  · rw [if_pos hwe] at hfw
    rw [← hfw]
    simp only [beq_iff_eq, Option.some.injEq]
    intro h
    exact hne h
  · rw [if_neg hwe] at hfw
    rw [← hfw]
    intro hcontra
    have ht : w.resetToken = some t1 := by simpa using hcontra
    exact hwe (beq_iff_eq.mpr (huniq w hw ht))

theorem validateToken_rejects_unknown (store : List User) (token : String)
    (now : Nat) (hnone : getUserByResetToken store token = none) :
    (validateToken store token now).resp = ⟨200, Body.valid false⟩
    ∧ (validateToken store token now).store = store := by
  by_cases hpre : (token == "" || token.length != 64) = true
  · simp only [validateToken, hpre, if_true]
    constructor <;> trivial
  · have hpre' : (token == "" || token.length != 64) = false := by
      simpa using hpre
    simp only [validateToken, hpre', Bool.false_eq_true, reduceIte, hnone]
    constructor <;> trivial

theorem resetPassword_rejects_unknown (store : List User) (token pw hashed :
    String) (now : Nat) (hnone : getUserByResetToken store token = none) :
    (resetPassword store (some (token, pw)) hashed now).resp.status = 400
    ∧ (resetPassword store (some (token, pw)) hashed now).store = store := by
  by_cases hpre : (token == "" || token.length != 64) = true
  · simp only [resetPassword, hpre, if_true]
    constructor <;> trivial
  · have hpre' : (token == "" || token.length != 64) = false := by
      simpa using hpre
    simp only [resetPassword, hpre', Bool.false_eq_true, reduceIte, hnone]
    constructor <;> trivial

/-- Claim C6: when a user holds live token t1 and a repeat forgot-password
request persists a different token t2 for the same email, t1 becomes
immediately unusable: the repository lookup finds no user for t1, the
validate endpoint answers `valid: false`, the consume endpoint answers 400,
and neither rejection changes the store. The sole-holder hypothesis reflects
that tokens are per-user. -/
theorem C6_superseded_token_unusable (store : List User)
    (email t1 t2 pw hashed : String) (exp now now2 : Nat) (u : User)
    (_hu : u ∈ store) (_hue : u.email = email) (_hut : u.resetToken = some t1)
    (huniq : ∀ v ∈ store, v.resetToken = some t1 → v.email = email)
    (hne : t2 ≠ t1) :
    getUserByResetToken (setResetToken store email t2 exp) t1 = none
    ∧ (validateToken (setResetToken store email t2 exp) t1 now).resp
        = ⟨200, Body.valid false⟩
    ∧ (validateToken (setResetToken store email t2 exp) t1 now).store
        = setResetToken store email t2 exp
    ∧ (resetPassword (setResetToken store email t2 exp) (some (t1, pw))
        hashed now2).resp.status = 400
    ∧ (resetPassword (setResetToken store email t2 exp) (some (t1, pw))
        hashed now2).store = setResetToken store email t2 exp := by
  have hgone := setResetToken_kills_old store email t1 t2 exp huniq hne
  have hv := validateToken_rejects_unknown _ t1 now hgone
  have hr := resetPassword_rejects_unknown _ t1 pw hashed now2 hgone
  exact ⟨hgone, hv.1, hv.2, hr.1, hr.2⟩

/-- Witness for C6: one user holding token of 64 c characters, superseded by
64 d characters. -/
theorem C6_superseded_witness :
    ({ id := "u1", email := "a@b.com", password := "old", name := "Alice"
     , resetToken := some (String.mk (List.replicate 64 'c'))
     , resetTokenExpiry := some 10 : User }
      ∈ [{ id := "u1", email := "a@b.com", password := "old", name := "Alice"
         , resetToken := some (String.mk (List.replicate 64 'c'))
         , resetTokenExpiry := some 10 : User }]
    ∧ String.mk (List.replicate 64 'd') ≠ String.mk (List.replicate 64 'c'))
    ∧ getUserByResetToken
        (setResetToken
          [{ id := "u1", email := "a@b.com", password := "old", name := "Alice"
           , resetToken := some (String.mk (List.replicate 64 'c'))
           , resetTokenExpiry := some 10 }]
          "a@b.com" (String.mk (List.replicate 64 'd')) 5000)
        (String.mk (List.replicate 64 'c'))
      = none
    ∧ (validateToken
        (setResetToken
          [{ id := "u1", email := "a@b.com", password := "old", name := "Alice"
           , resetToken := some (String.mk (List.replicate 64 'c'))
           , resetTokenExpiry := some 10 }]
          "a@b.com" (String.mk (List.replicate 64 'd')) 5000)
        (String.mk (List.replicate 64 'c')) 20).resp
      = ⟨200, Body.valid false⟩
    ∧ (resetPassword
        (setResetToken
          [{ id := "u1", email := "a@b.com", password := "old", name := "Alice"
           , resetToken := some (String.mk (List.replicate 64 'c'))
           , resetTokenExpiry := some 10 }]
          "a@b.com" (String.mk (List.replicate 64 'd')) 5000)
        (some (String.mk (List.replicate 64 'c'), "newpass1")) "digest"
        30).resp.status = 400 := by
  have h := C6_superseded_token_unusable
    [{ id := "u1", email := "a@b.com", password := "old", name := "Alice"
     , resetToken := some (String.mk (List.replicate 64 'c'))
     , resetTokenExpiry := some 10 }]
    "a@b.com" (String.mk (List.replicate 64 'c'))
    (String.mk (List.replicate 64 'd')) "newpass1" "digest" 5000 20 30
    { id := "u1", email := "a@b.com", password := "old", name := "Alice"
    , resetToken := some (String.mk (List.replicate 64 'c'))
    , resetTokenExpiry := some 10 }
    (by decide) rfl rfl (by decide) (by decide)
  exact ⟨⟨by decide, by decide⟩, h.1, h.2.1, h.2.2.2.1⟩

/-- Claim C9 (counterexample): the pre-filter does NOT check the character
set. A 64-character token made of Z characters — outside the hex alphabet —
passes the length-only filter and reaches the repository on both endpoints
(`repoLookups = 1`), refuting "rejects ... without any repository lookup
whenever it ... contains a character outside the allowed hex character
set". -/
theorem C9_counterexample_nonhex_reaches_repository :
    isHexChar 'Z' = false
    ∧ (String.mk (List.replicate 64 'Z')).length = 64
    ∧ (validateToken [] (String.mk (List.replicate 64 'Z')) 0).repoLookups = 1
    ∧ (resetPassword [] (some (String.mk (List.replicate 64 'Z'), "newpass1"))
        "digest" 0).repoLookups = 1 :=
  ⟨rfl, rfl, rfl, rfl⟩

/-- Claim C9 (amended): the syntactic pre-filter on both endpoints checks
only emptiness/length: a token that is empty or not exactly 64 characters is
rejected with no repository lookup and no state change; every 64-character
token — hex or not — reaches exactly one repository lookup. -/
theorem C9_prefilter_checks_length_only (store : List User)
    (token pw hashed : String) (now : Nat) :
    (token.length ≠ 64 →
      resetPassword store (some (token, pw)) hashed now
        = ⟨⟨400, Body.error "Token inválido"⟩, store, 0⟩
      ∧ validateToken store token now = ⟨⟨200, Body.valid false⟩, store, 0⟩)
    ∧ (token.length = 64 →
      (resetPassword store (some (token, pw)) hashed now).repoLookups = 1
      ∧ (validateToken store token now).repoLookups = 1) := by
  constructor
  · intro h
    have hlen : (token.length != 64) = true := by simpa using h
    constructor
    · simp only [resetPassword, hlen, Bool.or_true, if_true]
    · simp only [validateToken, hlen, Bool.or_true, if_true]
  · intro h
    have hne := length64_ne_empty h
    have hlen' : (token.length != 64) = false := by simp [h]
    constructor
    · simp only [resetPassword, hne, hlen', Bool.or_self, Bool.false_eq_true,
        reduceIte]
      cases hfind : getUserByResetToken store token with
      | none => rfl
      | some user =>
        repeat' split
        all_goals rfl
    · simp only [validateToken, hne, hlen', Bool.or_self, Bool.false_eq_true,
        reduceIte]
      cases hfind : getUserByResetToken store token with
      | none => rfl
      | some user =>
        repeat' split
        all_goals rfl

/-- Witness for the amended C9: a 2-character token is rejected without a
lookup; a 64-character token triggers exactly one lookup. -/
theorem C9_prefilter_witness :
    ("ab".length ≠ 64
      ∧ resetPassword [] (some ("ab", "newpass1")) "digest" 0
          = ⟨⟨400, Body.error "Token inválido"⟩, [], 0⟩
      ∧ validateToken [] "ab" 0 = ⟨⟨200, Body.valid false⟩, [], 0⟩)
    ∧ ((String.mk (List.replicate 64 'e')).length = 64
      ∧ (resetPassword [] (some (String.mk (List.replicate 64 'e'), "newpass1"))
          "digest" 0).repoLookups = 1
      ∧ (validateToken [] (String.mk (List.replicate 64 'e')) 0).repoLookups
          = 1) := by
  have h1 := C9_prefilter_checks_length_only [] "ab" "newpass1" "digest" 0
  have h2 := C9_prefilter_checks_length_only []
    (String.mk (List.replicate 64 'e')) "newpass1" "digest" 0
  exact ⟨⟨by decide, (h1.1 (by decide)).1, (h1.1 (by decide)).2⟩,
         ⟨by decide, (h2.2 (by decide)).1, (h2.2 (by decide)).2⟩⟩

theorem jget_append_none {b : Obj} {k : String} (h : jget b k = none)
    (a : Obj) : jget (a ++ b) k = jget a k := by
  rw [jget_append, h]

theorem jget_append_some {b : Obj} {k : String} {v : JVal}
    (h : jget b k = some v) (a : Obj) : jget (a ++ b) k = some v := by
  rw [jget_append, h]

/-- Claim C10: in both dispatcher variants the request body is spread after
the derived `event` entry, so a body key named "event" overrides the derived
name (when query/params do not also carry one), while `userId` and
`timestamp` are assigned after all spreads and cannot be overridden by any
body, query or params content. -/
theorem C10_payload_event_overridable_userId_timestamp_not (ev ts : String)
    (uid : Option String) (body query params : Obj) (pg : Option JVal)
    (v : JVal)
    (hb : jget body "event" = some v)
    (hq : jget query "event" = none)
    (hp : jget params "event" = none) :
    jget (mkPayload1 ev body query params uid ts) "event" = some v
    ∧ jget (mkPayload2 ev body query params pg uid ts) "event" = some v
    ∧ (∀ (b2 q2 p2 : Obj) (pg2 : Option JVal),
        jget (mkPayload1 ev b2 q2 p2 uid ts) "userId" = some (jsUserId uid)
        ∧ jget (mkPayload1 ev b2 q2 p2 uid ts) "timestamp"
            = some (JVal.str ts)
        ∧ jget (mkPayload2 ev b2 q2 p2 pg2 uid ts) "userId"
            = some (jsUserId uid)
        ∧ jget (mkPayload2 ev b2 q2 p2 pg2 uid ts) "timestamp"
            = some (JVal.str ts)) := by
  have tail1_event : ∀ (u : Option String) (t : String),
      jget [("userId", jsUserId u), ("timestamp", JVal.str t)] "event"
        = none := by
    intro u t
    simp [jget]
  have tail2_event : ∀ (g : JVal) (u : Option String) (t : String),
      jget [("geolocation", g), ("userId", jsUserId u),
        ("timestamp", JVal.str t)] "event" = none := by
    intro g u t
    simp [jget]
  refine ⟨?_, ?_, ?_⟩
  · simp only [mkPayload1]
    rw [jget_append_none (tail1_event uid ts), jget_append_none hp,
      jget_append_none hq, jget_append_some hb]
  · simp only [mkPayload2]
    have hq2 : jget (query.filter (fun p => !(p.1 == "_geo"))) "event"
        = none := by
      rw [jget_filter_ne query "_geo" "event" (by decide)]
      exact hq
    have hb2 : jget (body.filter (fun p => !(p.1 == "geolocation"))) "event"
        = some v := by
      rw [jget_filter_ne body "geolocation" "event" (by decide)]
      exact hb
    rw [jget_append_none (tail2_event _ uid ts), jget_append_none hp,
      jget_append_none hq2, jget_append_some hb2]
  · intro b2 q2 p2 pg2
    have t1u : jget [("userId", jsUserId uid), ("timestamp", JVal.str ts)]
        "userId" = some (jsUserId uid) := by simp [jget]
    have t1t : jget [("userId", jsUserId uid), ("timestamp", JVal.str ts)]
        "timestamp" = some (JVal.str ts) := by simp [jget]
    have t2u : ∀ g : JVal, jget [("geolocation", g), ("userId", jsUserId uid),
        ("timestamp", JVal.str ts)] "userId" = some (jsUserId uid) := by
      intro g
      simp [jget]
    have t2t : ∀ g : JVal, jget [("geolocation", g), ("userId", jsUserId uid),
        ("timestamp", JVal.str ts)] "timestamp" = some (JVal.str ts) := by
      intro g
      simp [jget]
    refine ⟨?_, ?_, ?_, ?_⟩
    · simp only [mkPayload1]
      rw [jget_append_some t1u]
    · simp only [mkPayload1]
      rw [jget_append_some t1t]
    · simp only [mkPayload2]
      rw [jget_append_some (t2u _)]
    · simp only [mkPayload2]
      rw [jget_append_some (t2t _)]

/-- Witness for C10: a body carrying `event: "spoofed"` overrides the derived
name "users.create" in both payload variants; userId/timestamp stay
server-assigned. -/
theorem C10_payload_witness :
    (jget [("event", JVal.str "spoofed")] "event" = some (JVal.str "spoofed")
      ∧ jget ([] : Obj) "event" = none)
    ∧ jget (mkPayload1 "users.create" [("event", JVal.str "spoofed")] [] []
        (some "u9") "2026-01-01T00:00:00Z") "event" = some (JVal.str "spoofed")
    ∧ jget (mkPayload2 "users.create" [("event", JVal.str "spoofed")] [] []
        none (some "u9") "2026-01-01T00:00:00Z") "event"
        = some (JVal.str "spoofed")
    ∧ jget (mkPayload1 "users.create" [("userId", JVal.str "evil"),
        ("timestamp", JVal.str "1970")] [] [] (some "u9")
        "2026-01-01T00:00:00Z") "userId" = some (jsUserId (some "u9"))
    ∧ jget (mkPayload2 "users.create" [("userId", JVal.str "evil"),
        ("timestamp", JVal.str "1970")] [] [] none (some "u9")
        "2026-01-01T00:00:00Z") "timestamp"
        = some (JVal.str "2026-01-01T00:00:00Z") := by
  have h := C10_payload_event_overridable_userId_timestamp_not "users.create"
    "2026-01-01T00:00:00Z" (some "u9") [("event", JVal.str "spoofed")] [] []
    none (JVal.str "spoofed") rfl rfl rfl
  have h2 := h.2.2 [("userId", JVal.str "evil"), ("timestamp", JVal.str "1970")]
    [] [] none
  exact ⟨⟨rfl, rfl⟩, h.1, h.2.1, h2.1, h2.2.2.2⟩

end Nexus
